import Mathlib

/-!
# Verification of the vehicle valuation engine

Shallow embedding of the dual-engine used-vehicle valuation system
(`dual_engine_valuation.py`) and of the insurance-grade IDV engine
(`insurance_grade_engine.py`), with theorems checking the natural-language
specification against the code.

Modelling conventions:
* Python floats are idealized as exact rationals (`ℚ`).  None of the
  properties verified here depends on binary floating-point rounding.
* `pyRound` models Python's `round` (round-half-to-even on exact values);
  `pyInt` models `int()` (truncation toward zero).
* Python `dict.get` with a `None` default becomes `Option`; truthiness
  tests (`if x:`) are translated explicitly at each use site.
* Python string case folding, stripping and containment are implemented
  structurally on `List Char` (Python `str.strip`/`lower`/`upper`/`in`/
  `startswith` restricted to the ASCII data this program handles).
* The sequential `book_value *= ...` mutations of the Python engines are
  embedded as products of conditional factors / compositional helper
  functions, composed by `ice_engine`/`ev_engine` in exactly the source
  order.
* f-string log entries are kept as fixed strings with the numeric
  interpolations elided; the one log entry a claim depends on
  ("reg_date missing or invalid; assuming age 0.") is a constant string in
  the source and is reproduced verbatim.
* `datetime.date.today()` / `datetime.now()` is a parameter
  `today : PyDate` so that a frozen "now" can be supplied.
-/

attribute [local semireducible] Rat.mul Rat.add Rat.sub Rat.inv

-- ---------------------------------------------------------------------
-- Python numeric primitives
-- ---------------------------------------------------------------------

/-- Python `round()` on an exact rational value: round half to even. -/
def pyRound (q : ℚ) : ℤ :=
  let f : ℤ := ⌊q⌋
  let r : ℚ := q - f
  if r < 1/2 then f
  else if 1/2 < r then f + 1
  else if f % 2 = 0 then f else f + 1

/-- Python `round(x, n)`: round to `n` decimal digits (half to even). -/
def pyRoundN (q : ℚ) (n : ℕ) : ℚ :=
  (pyRound (q * (10 ^ n : ℕ)) : ℚ) / (10 ^ n : ℕ)

/-- Python `int()` on an exact rational: truncation toward zero. -/
def pyInt (q : ℚ) : ℤ :=
  if 0 ≤ q then ⌊q⌋ else ⌈q⌉

/-- `clamp` from `dual_engine_valuation.py`: `max(lo, min(hi, v))`. -/
def clamp (v lo hi : ℚ) : ℚ := max lo (min hi v)

/-- The literal `1e-6` used by the engines. -/
def pyEps : ℚ := 1/1000000

-- ---------------------------------------------------------------------
-- Python string primitives (structural, over `List Char`)
-- ---------------------------------------------------------------------

/-- Python `str.lower()` (ASCII). -/
def lowerL (s : String) : List Char := s.toList.map Char.toLower

/-- Python `str.upper()` (ASCII). -/
def upperL (s : String) : List Char := s.toList.map Char.toUpper

/-- Python whitespace as stripped by `str.strip()`. -/
def isPySpace (c : Char) : Bool :=
  c == ' ' || c == '\t' || c == '\n' || c == '\r' || c == '\x0b' || c == '\x0c'

/-- Python `str.strip()` on a character list. -/
def stripL (l : List Char) : List Char :=
  ((l.dropWhile isPySpace).reverse.dropWhile isPySpace).reverse

/-- Python `a.startswith(b)` on character lists. -/
def startsW (l pre : List Char) : Bool := l.take pre.length == pre

/-- Python `needle in haystack` (substring test) on character lists. -/
def containsL (hay needle : List Char) : Bool :=
  (List.range (hay.length + 1)).any
    (fun i => (hay.drop i).take needle.length == needle)

/-- Split a character list at every occurrence of `sep`. -/
def splitOnChar (sep : Char) : List Char → List (List Char)
  | [] => [[]]
  | c :: rest =>
    let r := splitOnChar sep rest
    if c == sep then [] :: r
    else match r with
      | h :: t => (c :: h) :: t
      | [] => [[c]]

/-- Decimal digit string to a natural number (`None` if empty/non-digit). -/
def digitsVal? (l : List Char) : Option ℕ :=
  if l ≠ [] ∧ l.all Char.isDigit then
    some (l.foldl (fun a c => a * 10 + (c.toNat - 48)) 0)
  else none

-- ---------------------------------------------------------------------
-- CONFIG constants (`CONFIG` dictionary of dual_engine_valuation.py)
-- ---------------------------------------------------------------------

def default_avg_annual_km : ℚ := 10000

/-- `CONFIG["ice_depr_grid"]`: year breakpoint → cumulative depreciation,
in the sorted key order the code iterates over. -/
def ice_depr_grid : List (ℚ × ℚ) :=
  [(1/2, 5/100), (1, 10/100), (2, 18/100), (3, 25/100), (4, 30/100),
   (5, 35/100), (6, 40/100), (7, 45/100), (8, 50/100)]

def ice_depr_floor_after_8y : ℚ := 60/100
def ice_expected_annual_km : ℚ := 12000
def ice_mileage_penalty_per_1000km_over : ℚ := 6/1000
def ice_mileage_bonus_per_1000km_under : ℚ := 4/1000
def market_weight_age_under_3 : ℚ := 7/10
def market_weight_age_3_to_6 : ℚ := 6/10
def market_weight_age_over_6 : ℚ := 1/2
def negotiation_buffer_default : ℚ := 94/100
def south_multiplier : ℚ := 108/100
def ncr_diesel_panic_age_years : ℚ := 8
def ncr_diesel_scrap_age_years : ℚ := 19/2
def ncr_diesel_panic_penalty : ℚ := 25/100
def ev_degradation_rate_nmc : ℚ := 25/1000
def ev_degradation_rate_lfp : ℚ := 15/1000
def ev_high_usage_threshold_km : ℚ := 20000
def ev_high_usage_rate_increase : ℚ := 1/100
def ev_min_soh : ℚ := 55/100
def ev_battery_replacement_cost_per_kwh : ℚ := 30000
def ev_min_market_blend : ℚ := 3/10
def discontinued_penalty : ℚ := 12/100
def new_gen_penalty : ℚ := 7/100

/-- `CONFIG["dealer_margin"].get(body_type, 0.12)`. -/
def dealer_margin (body : String) : ℚ :=
  if body = "Hatchback" then 10/100
  else if body = "Sedan" then 12/100
  else if body = "SUV" then 12/100
  else if body = "Luxury" then 15/100
  else 12/100

/-- `CONFIG["refurbishment_cost"]["ICE"].get(body_type, 0)`. -/
def refurbishment_cost_ice (body : String) : ℚ :=
  if body = "Hatchback" then 8000
  else if body = "Sedan" then 15000
  else if body = "SUV" then 25000
  else if body = "Luxury" then 60000
  else 0

/-- `CONFIG["refurbishment_cost"]["EV"].get(body_type, ...["EV"]["any"])`.
The EV table is `{"any": 10000}`, so every body type yields 10000. -/
def refurbishment_cost_ev (_body : String) : ℚ := 10000

/-- `CONFIG["scrap_values"].get(body_type, 18000)`. -/
def scrap_values (body : String) : ℚ :=
  if body = "Hatchback" then 18000
  else if body = "Sedan" then 30000
  else if body = "SUV" then 45000
  else if body = "Luxury" then 60000
  else 18000

def DISCONTINUED_DB : List (List Char) :=
  ["Ford Ecosport".toList, "Honda Civic".toList, "VW Polo".toList,
   "Maruti Alto 800".toList, "Renault Duster".toList]

def NEW_GEN_DB : List (List Char) :=
  ["Maruti Swift".toList, "Hyundai Creta".toList, "Tata Nexon".toList,
   "Mahindra XUV300".toList]

-- ---------------------------------------------------------------------
-- Dates
-- ---------------------------------------------------------------------

/-- A calendar date as used by `datetime.date`. -/
structure PyDate where
  year : ℤ
  month : ℤ
  day : ℤ
deriving DecidableEq

def isLeap (y : ℤ) : Bool :=
  (y % 4 == 0 && y % 100 != 0) || y % 400 == 0

def daysInMonth (y m : ℤ) : ℤ :=
  if m = 2 then (if isLeap y then 29 else 28)
  else if m = 4 ∨ m = 6 ∨ m = 9 ∨ m = 11 then 30
  else 31

/-- `parse_date_safe`: `datetime.strptime(s, "%Y-%m-%d")` under a
`try/except` returning `None` on failure.  CPython `_strptime` matches
`%Y` as exactly four digits, `%m` and `%d` as one or two digits with
values 1..12 / 1..31, and the `datetime` constructor then validates the
calendar day (and rejects year 0). -/
def parse_date_safe (s : String) : Option PyDate :=
  match splitOnChar '-' s.toList with
  | [ys, ms, ds] =>
    match digitsVal? ys, digitsVal? ms, digitsVal? ds with
    | some y, some m, some d =>
      if ys.length = 4 ∧ ms.length ≤ 2 ∧ ds.length ≤ 2 ∧
         1 ≤ y ∧ 1 ≤ m ∧ m ≤ 12 ∧ 1 ≤ d ∧ (d : ℤ) ≤ daysInMonth y m
      then some ⟨y, m, d⟩ else none
    | _, _, _ => none
  | _ => none

/-- `age_from_reg_date`: month-difference age in years (rounded to 3
decimals) and whole months; `None` when the date is missing or does not
parse. -/
def age_from_reg_date (today : PyDate) (reg_date : Option String) : Option (ℚ × ℤ) :=
  match reg_date.bind parse_date_safe with
  | none => none
  | some reg =>
    let delta_months : ℤ := (today.year - reg.year) * 12 + (today.month - reg.month)
    some (pyRoundN ((delta_months : ℚ) / 12) 3, delta_months)

/-- `choose_depr_from_grid`: first grid entry whose breakpoint is ≥ age
(iteration over the sorted keys), else the post-8-year floor. -/
def choose_depr_from_grid (age_years : ℚ) : ℚ :=
  match ice_depr_grid.find? (fun p => decide (age_years ≤ p.1)) with
  | some p => p.2
  | none => ice_depr_floor_after_8y

-- ---------------------------------------------------------------------
-- Input payload and derived metrics
-- ---------------------------------------------------------------------

/-- The input record consumed by `value_vehicle` (Python dict fields,
`Option` where the code treats absence via `dict.get`).  `color` and
`owner_count` are accepted but never read by the dual engine. -/
structure Payload where
  make : String := ""
  model : String := ""
  fuel_type : String := ""
  reg_date : Option String := none
  body_type : Option String := none
  color : String := ""
  odometer : Option ℚ := none
  owner_count : ℚ := 1
  market_listings_mean : Option ℚ := none
  current_ex_showroom : Option ℚ := none
  historical_onroad_price : Option ℚ := none
  city : String := ""
  rto_code : String := ""
  battery_capacity_kwh : Option ℚ := none
  battery_chemistry : Option String := none
  current_benchmark_ev_price : Option ℚ := none
  current_benchmark_ev_kwh : Option ℚ := none
deriving DecidableEq

/-- The `metrics` dict assembled by `value_vehicle`. -/
structure Metrics where
  age_years : ℚ
  age_months : ℤ
  odometer : ℚ
  avg_annual_running : ℤ
deriving DecidableEq

/-- Age/odometer normalization section of `value_vehicle` (lines 318-337):
age and months from the registration date (0 with a warning when missing or
invalid), odometer fallback `int(age_years * default_avg_annual_km)`, and
`avg_annual_running = int(round(odometer / max(1.0, max(age_years, 1e-6))))`
when `age_years > 0`, else the configured default. -/
def derive_metrics (today : PyDate) (p : Payload) : Metrics × List String :=
  let (age_years, age_months, log0) :=
    match age_from_reg_date today p.reg_date with
    | some (ay, am) => (ay, am, ([] : List String))
    | none => (0, 0, ["reg_date missing or invalid; assuming age 0."])
  let (odometer, log1) :=
    match p.odometer with
    | some od => (od, log0)
    | none => ((pyInt (age_years * default_avg_annual_km) : ℚ),
               log0 ++ ["Estimated odometer (age-based fallback)."])
  let avg_annual_running : ℤ :=
    pyRound (if age_years > 0
             then odometer / max 1 (max age_years pyEps)
             else default_avg_annual_km)
  (⟨age_years, age_months, odometer, avg_annual_running⟩, log1)

-- ---------------------------------------------------------------------
-- ICE engine (`ice_engine`, dual_engine_valuation.py lines 103-188)
-- ---------------------------------------------------------------------

/-- Step A (lines 110-118): historical on-road price, estimated from the
current ex-showroom price when missing; `None` means the `ValueError` is
raised. -/
def ice_hist (p : Payload) (age_years : ℚ) : Option ℚ :=
  match p.historical_onroad_price, p.current_ex_showroom with
  | none, some ce => some (ce * (1 - 2/100 * clamp age_years 0 10))
  | h, _ => h

/-- Step 2 (lines 125-135): multiplicative mileage adjustment factor. -/
def ice_mileage_factor (avg_annual : ℤ) : ℚ :=
  let km_diff : ℚ := (avg_annual : ℚ) - ice_expected_annual_km
  if km_diff > 0 then 1 - (km_diff / 1000) * ice_mileage_penalty_per_1000km_over
  else 1 + (|km_diff| / 1000) * ice_mileage_bonus_per_1000km_under

/-- `f"{make.strip()} {model.strip()}".strip()` (line 138). -/
def ice_mm (p : Payload) : List Char :=
  stripL (stripL p.make.toList ++ " ".toList ++ stripL p.model.toList)

/-- Step 3 (lines 137-144): lifecycle penalty factor (both lists may
apply). -/
def ice_lifecycle_factor (p : Payload) : ℚ :=
  (if ice_mm p ∈ DISCONTINUED_DB then 1 - discontinued_penalty else 1) *
  (if ice_mm p ∈ NEW_GEN_DB then 1 - new_gen_penalty else 1)

/-- Line 150: `fuel_type.lower() == "diesel" and ("delhi" in city or
city.startswith("ncr") or rto.startswith("DL"))`. -/
def ice_ncr_diesel (p : Payload) : Bool :=
  (lowerL p.fuel_type == "diesel".toList) &&
  (containsL (lowerL p.city) "delhi".toList ||
   startsW (lowerL p.city) "ncr".toList ||
   startsW (upperL p.rto_code) "DL".toList)

/-- The `elif age >= panic` penalty (lines 155-157); `ice_engine` applies
it only on the non-scrap path, matching the source's `elif`. -/
def ice_panic_factor (p : Payload) (age_years : ℚ) : ℚ :=
  if ice_ncr_diesel p = true ∧ age_years ≥ ncr_diesel_panic_age_years then
    1 - ncr_diesel_panic_penalty
  else 1

/-- Lines 159-161: South-India premium on RTO prefix. -/
def ice_south_factor (rto_code : String) : ℚ :=
  if upperL rto_code ≠ [] ∧
     (upperL rto_code).take 2 ∈
       ["KA".toList, "TS".toList, "TN".toList, "KL".toList, "AP".toList] then
    south_multiplier
  else 1

/-- The running `book_value` after steps 1-4 (grid depreciation, mileage,
lifecycle, panic penalty, South premium), for the non-scrap path. -/
def ice_book (p : Payload) (m : Metrics) (hist_onroad : ℚ) : ℚ :=
  hist_onroad * (1 - choose_depr_from_grid m.age_years)
    * ice_mileage_factor m.avg_annual_running
    * ice_lifecycle_factor p
    * ice_panic_factor p m.age_years
    * ice_south_factor p.rto_code

/-- Divergence measure `abs(market - intrinsic) / (intrinsic + 1e-6)` used
by both engines before blending.  Lean division is total; the engines
therefore guard the `intrinsic + 1e-6 = 0` case explicitly as the
`ZeroDivisionError` Python raises there, so this function is only relied
on where its denominator is nonzero. -/
def divergence (market intrinsic : ℚ) : ℚ :=
  |market - intrinsic| / (intrinsic + pyEps)

/-- Age-tier baseline market weight of the ICE engine (lines 166-171). -/
def ice_base_weight (age_years : ℚ) : ℚ :=
  if age_years < 3 then market_weight_age_under_3
  else if age_years ≤ 6 then market_weight_age_3_to_6
  else market_weight_age_over_6

/-- Market weight actually used by the ICE engine after the divergence
plausibility bound (lines 172-177). -/
def ice_used_weight (age_years div : ℚ) : ℚ :=
  if div > 35/100 then max ev_min_market_blend (ice_base_weight age_years - 15/100)
  else ice_base_weight age_years

/-- Whether the ICE market branch runs (line 165:
`market_mean is not None and market_mean > 0`), i.e. whether the
divergence division is executed. -/
def ice_market_active (p : Payload) : Bool :=
  match p.market_listings_mean with
  | some mk => decide (mk > 0)
  | none => false

/-- Step 5 (lines 163-182): market convergence. -/
def ice_blended (p : Payload) (age_years book_value : ℚ) : ℚ :=
  match p.market_listings_mean with
  | some mk =>
    if mk > 0 then
      let m_w := ice_used_weight age_years (divergence mk book_value)
      mk * m_w + book_value * (1 - m_w)
    else book_value
  | none => book_value

/-- Result dict of `ice_engine`; the scrap short-circuit omits
`book_value`. -/
structure IceResult where
  fair_market_retail_value : ℚ
  reason : String
  book_value : Option ℤ := none
deriving DecidableEq

/-- `ice_engine`: raises (`.error`) when both price inputs are absent; the
NCR-diesel scrap branch (lines 151-154) returns the body-type scrap value,
skipping the remaining steps; otherwise book value → market blending →
negotiation buffer.  When the market branch runs and the divergence
denominator `book_value + 1e-6` (line 173) is exactly zero, Python raises
an uncaught `ZeroDivisionError`, modelled as an explicit error. -/
def ice_engine (p : Payload) (m : Metrics) : Except String IceResult :=
  match ice_hist p m.age_years with
  | none => .error "Insufficient price inputs for ICE valuation: historical_onroad or current_ex required."
  | some hist_onroad =>
    if ice_ncr_diesel p = true ∧ m.age_years ≥ ncr_diesel_scrap_age_years then
      .ok { fair_market_retail_value := scrap_values (p.body_type.getD "Hatchback"),
            reason := "NCR diesel scrap threshold" }
    else
      let book5 := ice_book p m hist_onroad
      if ice_market_active p = true ∧ book5 + pyEps = 0 then
        .error "ZeroDivisionError: float division by zero"
      else
        .ok { fair_market_retail_value :=
                (pyRound (ice_blended p m.age_years book5 * negotiation_buffer_default) : ℚ),
              reason := "ICE computed",
              book_value := some (pyRound book5) }

-- ---------------------------------------------------------------------
-- EV engine (`ev_engine`, dual_engine_valuation.py lines 193-290)
-- ---------------------------------------------------------------------

/-- Step 1 (lines 207-213): cost-per-kWh anchor (`if benchmark_price and
benchmark_kwh:` — both present and nonzero). -/
def ev_cost_per_kwh (p : Payload) : ℚ :=
  match p.current_benchmark_ev_price, p.current_benchmark_ev_kwh with
  | some bp, some bk =>
    if bp ≠ 0 ∧ bk ≠ 0 then bp / bk else ev_battery_replacement_cost_per_kwh
  | _, _ => ev_battery_replacement_cost_per_kwh

/-- `(data.get("battery_chemistry") or "NMC").upper()` (line 198):
a missing or empty string falls back to `"NMC"`. -/
def ev_chemistry (p : Payload) : List Char :=
  upperL (if p.battery_chemistry.getD "" = "" then "NMC" else p.battery_chemistry.getD "")

/-- Chemistry- and usage-dependent annual battery degradation rate
(lines 223-230); `if avg_annual and avg_annual > threshold`. -/
def ev_annual_deg (chemistry : List Char) (avg_annual : ℤ) : ℚ :=
  let base := if chemistry = "LFP".toList then ev_degradation_rate_lfp
              else ev_degradation_rate_nmc
  if avg_annual ≠ 0 ∧ (avg_annual : ℚ) > ev_high_usage_threshold_km then
    base + ev_high_usage_rate_increase
  else base

/-- State-of-health estimate (lines 232-233):
`clamp(1 - annual_deg * clamp(age_years, 0, 20), ev_min_soh, 1.0)`. -/
def ev_soh (annual_deg age_years : ℚ) : ℚ :=
  clamp (1 - annual_deg * clamp age_years 0 20) ev_min_soh 1

/-- Steps 2-5 (lines 215-270): the battery running value after SoH,
warranty-cliff reserve, range/tech penalty, chemistry penalty and wear
reserve, floored at zero. -/
def ev_intrinsic (p : Payload) (m : Metrics) (battery_kwh : ℚ) : ℚ :=
  let cost_per_kwh := ev_cost_per_kwh p
  let adjusted_base_price := cost_per_kwh * battery_kwh * (1 + 12/100)
  let soh := ev_soh (ev_annual_deg (ev_chemistry p) m.avg_annual_running) m.age_years
  let brv0 := adjusted_base_price * soh
  let brv1 :=
    if m.age_years ≥ 7 ∨ m.odometer > 140000 then
      brv0 - 30/100 * (cost_per_kwh * battery_kwh)
    else brv0
  let brv2 :=
    match p.current_benchmark_ev_kwh with
    | some bk =>
      if bk ≠ 0 ∧ bk > 0 then
        (if battery_kwh / bk < 85/100 then
           brv1 * (1 - (85/100 - battery_kwh / bk) * 25/100)
         else brv1)
      else brv1
    | none => brv1
  let brv3 := if ev_chemistry p = "NMC".toList then brv2 * (1 - 3/100) else brv2
  max (brv3 * (1 - 10/100)) 0

/-- Age-tier baseline market weight of the EV engine (lines 276-278). -/
def ev_base_weight (age_years : ℚ) : ℚ :=
  if age_years < 3 then 6/10 else 1/2

/-- Market weight actually used by the EV engine after the divergence
bound (lines 279-281). -/
def ev_used_weight (age_years div : ℚ) : ℚ :=
  if div > 40/100 then max ev_min_market_blend (ev_base_weight age_years - 2/10)
  else ev_base_weight age_years

/-- Whether the EV market branch runs (line 273:
`market_mean and market_mean > 0`). -/
def ev_market_active (p : Payload) : Bool :=
  match p.market_listings_mean with
  | some mk => decide (mk ≠ 0 ∧ mk > 0)
  | none => false

/-- Step 6 (lines 272-286): market convergence (`if market_mean and
market_mean > 0`). -/
def ev_blended (p : Payload) (age_years intrinsic : ℚ) : ℚ :=
  match p.market_listings_mean with
  | some mk =>
    if mk ≠ 0 ∧ mk > 0 then
      let w := ev_used_weight age_years (divergence mk intrinsic)
      mk * w + intrinsic * (1 - w)
    else intrinsic
  | none => intrinsic

/-- Result dict of `ev_engine`. -/
structure EvResult where
  fair_market_retail_value : ℤ
  reason : String
  battery_soh : ℚ
  cost_per_kwh : ℚ
  battery_running_value : ℤ
deriving DecidableEq

/-- `ev_engine`: raises when `battery_capacity_kwh` is absent; otherwise
succeeds with the blended value and audit fields.  The divergence division
(line 275) carries the same `ZeroDivisionError` guard as the ICE engine,
but its denominator `battery_running_value + 1e-6` is provably positive
(the running value is floored at 0 on line 269), so the guard never
fires. -/
def ev_engine (p : Payload) (m : Metrics) : Except String EvResult :=
  match p.battery_capacity_kwh with
  | none => .error "battery_capacity_kwh required for EV valuation"
  | some battery_kwh =>
    if ev_market_active p = true ∧ ev_intrinsic p m battery_kwh + pyEps = 0 then
      .error "ZeroDivisionError: float division by zero"
    else
    .ok { fair_market_retail_value :=
            pyRound (ev_blended p m.age_years (ev_intrinsic p m battery_kwh)),
          reason := "EV computed",
          battery_soh :=
            pyRoundN (ev_soh (ev_annual_deg (ev_chemistry p) m.avg_annual_running)
                             m.age_years) 3,
          cost_per_kwh := pyRoundN (ev_cost_per_kwh p) 2,
          battery_running_value := pyRound (ev_intrinsic p m battery_kwh) }

-- ---------------------------------------------------------------------
-- Dealer economics and orchestrator
-- ---------------------------------------------------------------------

/-- `compute_dealer_offer` (lines 295-301): margin and refurbishment by
body type, floored at zero.  Returns the rounded offer together with the
`margin_pct`/`refurbishment` metadata. -/
def compute_dealer_offer (retail_value : ℚ) (body_type : String) (is_ev : Bool) :
    ℤ × ℚ × ℚ :=
  let margin_pct := dealer_margin body_type
  let refurb := if is_ev then refurbishment_cost_ev body_type
                else refurbishment_cost_ice body_type
  let dealer_offer := retail_value * (1 - margin_pct) - refurb
  (pyRound (max dealer_offer 0), margin_pct, refurb)

/-- Engine-specific breakdown carried in the output record. -/
inductive Breakdown where
  | ice (r : IceResult)
  | ev (r : EvResult)
deriving DecidableEq

/-- The success output of `value_vehicle` (status, engine, metrics,
pricing, audit log, breakdown). -/
structure VOut where
  engine_used : String
  age_years : ℚ
  age_months : ℤ
  estimated_odometer : ℚ
  avg_annual_running : ℤ
  fair_market_retail_value : ℤ
  dealer_purchase_offer : ℤ
  breakdown : Breakdown
  steps : List String
deriving DecidableEq

/-- Assembly of the final record for the ICE path (`fair_value =
int(...)`, dealer offer from the integer fair value). -/
def assemble_ice (p : Payload) (m : Metrics) (log : List String) (r : IceResult) : VOut :=
  let fair_value := pyInt r.fair_market_retail_value
  let body_type := p.body_type.getD "Hatchback"
  let dealer := compute_dealer_offer (fair_value : ℚ) body_type false
  { engine_used := "ICE", age_years := m.age_years, age_months := m.age_months,
    estimated_odometer := m.odometer, avg_annual_running := m.avg_annual_running,
    fair_market_retail_value := fair_value, dealer_purchase_offer := dealer.1,
    breakdown := .ice r, steps := log }

/-- Assembly of the final record for the EV path. -/
def assemble_ev (p : Payload) (m : Metrics) (log : List String) (r : EvResult) : VOut :=
  let fair_value := r.fair_market_retail_value
  let body_type := p.body_type.getD "Hatchback"
  let dealer := compute_dealer_offer (fair_value : ℚ) body_type true
  { engine_used := "EV", age_years := m.age_years, age_months := m.age_months,
    estimated_odometer := m.odometer, avg_annual_running := m.avg_annual_running,
    fair_market_retail_value := fair_value, dealer_purchase_offer := dealer.1,
    breakdown := .ev r, steps := log }

/-- `value_vehicle` (lines 306-381): normalization, engine dispatch on
`fuel_type` (`.strip().title()` then case-insensitive comparison, i.e.
strip + lowercase equality with "electric"), dealer offer, final record.
An engine error propagates with no partial result. -/
def value_vehicle (today : PyDate) (p : Payload) : Except String VOut :=
  if stripL (lowerL p.fuel_type) = "electric".toList then
    (ev_engine p (derive_metrics today p).1).map
      (assemble_ev p (derive_metrics today p).1 (derive_metrics today p).2)
  else
    (ice_engine p (derive_metrics today p).1).map
      (assemble_ice p (derive_metrics today p).1 (derive_metrics today p).2)

deriving instance DecidableEq for Except

/-- The ICE zero-division condition of a full `value_vehicle` run: the
price inputs produce a historical price, the scrap short-circuit does not
fire, the market branch is active, and the book value makes the divergence
denominator exactly zero. -/
def ice_div_zero (today : PyDate) (p : Payload) : Prop :=
  match ice_hist p (derive_metrics today p).1.age_years with
  | none => False
  | some h =>
    ¬(ice_ncr_diesel p = true ∧
        (derive_metrics today p).1.age_years ≥ ncr_diesel_scrap_age_years) ∧
    (ice_market_active p = true ∧
      ice_book p (derive_metrics today p).1 h + pyEps = 0)

-- result field extractors used by concrete-input theorems
def okFair (r : Except String VOut) : ℤ :=
  match r with | .ok o => o.fair_market_retail_value | .error _ => 0

def okDealer (r : Except String VOut) : ℤ :=
  match r with | .ok o => o.dealer_purchase_offer | .error _ => 0

def okSoh (r : Except String VOut) : ℚ :=
  match r with
  | .ok o => match o.breakdown with | .ev e => e.battery_soh | .ice _ => 0
  | .error _ => 0

def okBookIce (r : Except String VOut) : ℤ :=
  match r with
  | .ok o => match o.breakdown with | .ice i => i.book_value.getD 0 | .ev _ => 0
  | .error _ => 0

def isOkB (r : Except String VOut) : Bool :=
  match r with | .ok _ => true | .error _ => false

-- ---------------------------------------------------------------------
-- Insurance-grade IDV engine (`insurance_grade_engine.py`)
-- ---------------------------------------------------------------------

def MONTHLY_DEPRECIATION_RATE : ℚ := 8/1000
def OWNER_2_PENALTY : ℚ := 97/100
def OWNER_3_PLUS_PENALTY : ℚ := 94/100
def MARKET_CACHE_MAX_AGE_DAYS : ℤ := 45

/-- Input dict of `InsuranceGradeValuationEngine.calculate_idv`
(`float(...)` coercions with default 0, `owner_count` default 1,
`market_cache_age_days` default 0). -/
structure IdvInput where
  registration_number : String := ""
  make : String := ""
  base_model : String := ""
  variant : String := ""
  fuel : String := ""
  transmission : String := ""
  manufacturing_year : ℤ := 0
  manufacturing_month : ℤ := 1
  city : String := ""
  owner_count : ℤ := 1
  base_ex_showroom : ℚ := 0
  variant_ex_showroom : ℚ := 0
  market_listings_mean : ℚ := 0
  market_cache_age_days : ℤ := 0
deriving DecidableEq

/-- Outcome of `calculate_idv`: the stale-cache gate, the missing-price
error, or a successful IDV result. -/
inductive IdvOutcome where
  | marketRefreshRequired
  | missingPrices
  | success (final_idv : ℤ) (adjusted_market_value : ℚ) (months_old : ℤ)
            (owner_adjustment_applied : ℚ) (confidence_score : ℚ)
deriving DecidableEq

/-- `_calculate_confidence` (lines 142-164). -/
def calculate_confidence (market_age : ℤ) (variant_ratio : ℚ) (months_old : ℤ)
    (market_mean : ℚ) : ℚ :=
  let c1 : ℚ := 1
  let c2 := if market_age > 30 then c1 - 1/10
            else if market_age > 15 then c1 - 5/100 else c1
  let c3 := if variant_ratio < 8/10 ∨ variant_ratio > 13/10 then c2 - 15/100 else c2
  let c4 := if months_old ≤ 12 then c3 + 5/100 else c3
  let c5 := if market_mean = 0 then c4 - 3/10 else c4
  max 0 (min 1 c5)

/-- `calculate_idv` (lines 26-140): market-cache freshness gate, variant
ratio, month-level depreciation, owner adjustment, rounding to the
nearest 1000. -/
def calculate_idv (now : PyDate) (i : IdvInput) : IdvOutcome :=
  if i.market_cache_age_days > MARKET_CACHE_MAX_AGE_DAYS then
    .marketRefreshRequired
  else if i.base_ex_showroom = 0 ∨ i.variant_ex_showroom = 0 then
    .missingPrices
  else
    let variant_ratio := i.variant_ex_showroom / i.base_ex_showroom
    let adjusted_market_value := i.market_listings_mean * variant_ratio
    let months_old : ℤ :=
      (now.year - i.manufacturing_year) * 12 + (now.month - i.manufacturing_month)
    let depreciated0 :=
      adjusted_market_value * (1 - MONTHLY_DEPRECIATION_RATE * (months_old : ℚ))
    let dep_adj : ℚ × ℚ :=
      if i.owner_count = 2 then (depreciated0 * OWNER_2_PENALTY, OWNER_2_PENALTY)
      else if i.owner_count ≥ 3 then (depreciated0 * OWNER_3_PLUS_PENALTY, OWNER_3_PLUS_PENALTY)
      else (depreciated0, 1)
    .success (pyRound (dep_adj.1 / 1000) * 1000)
             (pyRoundN adjusted_market_value 2)
             months_old
             dep_adj.2
             (pyRoundN (calculate_confidence i.market_cache_age_days variant_ratio
                          months_old i.market_listings_mean) 2)

def isRefreshIdv (o : IdvOutcome) : Bool :=
  match o with | .marketRefreshRequired => true | _ => false

def hasIdv (o : IdvOutcome) : Bool :=
  match o with | .success _ _ _ _ _ => true | _ => false

-- ---------------------------------------------------------------------
-- Spec-side definition and concrete inputs used by the theorems
-- ---------------------------------------------------------------------

/-- The base-depreciation lookup as the specification words it: the grid
value at the smallest breakpoint ≥ age, and the configured floor beyond
the last breakpoint — written out over the concrete grid, to be compared
with `choose_depr_from_grid`. -/
def grid_value_spec (a : ℚ) : ℚ :=
  if a ≤ 1/2 then 5/100 else if a ≤ 1 then 10/100 else if a ≤ 2 then 18/100
  else if a ≤ 3 then 25/100 else if a ≤ 4 then 30/100 else if a ≤ 5 then 35/100
  else if a ≤ 6 then 40/100 else if a ≤ 7 then 45/100 else if a ≤ 8 then 50/100
  else 60/100

/-- Frozen "now" used by all concrete scenarios. -/
def t0 : PyDate := ⟨2026, 10, 12⟩

/-- Scenario A of the spec: Maruti Suzuki Swift, Petrol, Hatchback,
registered exactly 5 years 0 months before the frozen now. -/
def scenarioA : Payload :=
  { make := "Maruti Suzuki", model := "Swift", fuel_type := "Petrol",
    reg_date := some "2021-10-12", body_type := some "Hatchback",
    color := "White", owner_count := 1,
    market_listings_mean := some 425000,
    current_ex_showroom := some 650000,
    city := "Delhi", rto_code := "DL3C" }

/-- A valid ICE input with an extreme odometer (500,000 km/year average):
the mileage penalty exceeds 100% and the book value turns negative. -/
def overdriven : Payload :=
  { make := "Generic", model := "Car", fuel_type := "Petrol",
    reg_date := some "2016-10-12", body_type := some "Hatchback",
    odometer := some 5000000, current_ex_showroom := some 500000,
    city := "Mumbai", rto_code := "MH12" }

/-- Scenario C of the spec: 10-year-old Delhi diesel Honda City. -/
def scenarioC : Payload :=
  { make := "Honda", model := "City", fuel_type := "Diesel",
    reg_date := some "2016-10-12", body_type := some "Sedan",
    current_ex_showroom := some 1200000, market_listings_mean := some 250000,
    city := "Delhi", rto_code := "DL8C" }

/-- A scrap-valued Luxury Delhi diesel (scrap 60000, margin 15%,
refurbishment 60000 ⇒ dealer offer exactly 0). -/
def scrapLuxury : Payload :=
  { make := "BMW", model := "X5", fuel_type := "Diesel",
    reg_date := some "2015-10-12", body_type := some "Luxury",
    current_ex_showroom := some 5000000, city := "Delhi", rto_code := "DL1C" }

/-- An ICE input whose market mean makes the divergence exactly 35%:
book value 650000, market mean 1.35·(650000 + 10⁻⁶). -/
def boundaryDiv : Payload :=
  { make := "Basic", model := "Car", fuel_type := "Petrol",
    reg_date := some "2021-10-12", odometer := some 60000,
    historical_onroad_price := some 1000000,
    market_listings_mean := some (877500 + 7/20000000),
    city := "Mumbai", rto_code := "MH12" }

/-- A 35-year-old LFP EV: the claim formula (unclamped age) says
SoH = 0.55 but the code clamps age at 20 years and returns 0.7. -/
def veteranLfp : Payload :=
  { make := "Old", model := "EV", fuel_type := "Electric",
    reg_date := some "1991-10-12", battery_capacity_kwh := some 30,
    battery_chemistry := some "LFP" }

/-- The EV breakdown produced for `veteranLfp`. -/
def veteranLfp_ev : EvResult :=
  { fair_market_retail_value := 392040, reason := "EV computed",
    battery_soh := 7/10, cost_per_kwh := 30000,
    battery_running_value := 392040 }

/-- The full output record produced for `veteranLfp`. -/
def veteranLfp_out : VOut :=
  { engine_used := "EV", age_years := 35, age_months := 420,
    estimated_odometer := 350000, avg_annual_running := 10000,
    fair_market_retail_value := 392040, dealer_purchase_offer := 342836,
    breakdown := .ev veteranLfp_ev,
    steps := ["Estimated odometer (age-based fallback)."] }

/-- A payload whose registration date `strptime` rejects (a three-digit
year). -/
def badDate : Payload :=
  { fuel_type := "Petrol", reg_date := some "215-01-01",
    current_ex_showroom := some 100000 }

/-- A petrol input whose book value is exactly −10⁻⁶ (historical price
−2·10⁻⁶, 50% depreciation at age 8, mileage factor exactly 1), with a
positive market mean: the divergence denominator is exactly zero and
Python raises `ZeroDivisionError`. -/
def divZero : Payload :=
  { make := "Zero", model := "Div", fuel_type := "Petrol",
    reg_date := some "2018-10-12", odometer := some 96000,
    historical_onroad_price := some (-(1/500000)),
    market_listings_mean := some 1,
    city := "Mumbai", rto_code := "MH12" }

/-- An IDV input whose market cache is 50 days old. -/
def staleIdv : IdvInput :=
  { registration_number := "MH02GJ2882", manufacturing_year := 2024,
    manufacturing_month := 11, owner_count := 1,
    base_ex_showroom := 1100000, variant_ex_showroom := 1650000,
    market_listings_mean := 1326250, market_cache_age_days := 50 }


-- ---------------------------------------------------------------------
-- Basic lemmas about the Python primitives
-- ---------------------------------------------------------------------

theorem floor_le_pyRound (q : ℚ) : ⌊q⌋ ≤ pyRound q := by
  simp only [pyRound]
  split_ifs <;> omega

theorem pyRound_le_floor_add_one (q : ℚ) : pyRound q ≤ ⌊q⌋ + 1 := by
  simp only [pyRound]
  split_ifs <;> omega

theorem pyRound_nonneg {q : ℚ} (h : 0 ≤ q) : 0 ≤ pyRound q :=
  le_trans (Int.floor_nonneg.mpr h) (floor_le_pyRound q)

theorem pyRound_intCast (n : ℤ) : pyRound (n : ℚ) = n := by
  unfold pyRound
  rw [Int.floor_intCast]
  norm_num

theorem pyRound_le_of_le_intCast {q : ℚ} {n : ℤ} (h : q ≤ (n : ℚ)) : pyRound q ≤ n := by
  have hf : ⌊q⌋ ≤ n := by
    have := Int.floor_le_floor h
    rwa [Int.floor_intCast] at this
  rcases lt_or_eq_of_le hf with hlt | heq
  · exact le_trans (pyRound_le_floor_add_one q) (by omega)
  · have hq : (n : ℚ) ≤ q := heq ▸ Int.floor_le q
    have : q = (n : ℚ) := le_antisymm h hq
    rw [this, pyRound_intCast]

theorem pyInt_intCast (n : ℤ) : pyInt (n : ℚ) = n := by
  unfold pyInt
  split_ifs <;> simp

theorem pyInt_nonneg {q : ℚ} (h : 0 ≤ q) : 0 ≤ pyInt q := by
  unfold pyInt
  rw [if_pos h]
  exact Int.floor_nonneg.mpr h

theorem le_clamp (v lo hi : ℚ) : lo ≤ clamp v lo hi := le_max_left _ _

theorem clamp_le {lo hi : ℚ} (v : ℚ) (h : lo ≤ hi) : clamp v lo hi ≤ hi :=
  max_le h (min_le_left _ _)

-- ---------------------------------------------------------------------
-- Bounds on the configuration-driven pieces
-- ---------------------------------------------------------------------

theorem choose_depr_bounds (a : ℚ) :
    0 ≤ choose_depr_from_grid a ∧ choose_depr_from_grid a ≤ 1 := by
  unfold choose_depr_from_grid
  cases hf : ice_depr_grid.find? (fun p => decide (a ≤ p.1)) with
  | none => norm_num [ice_depr_floor_after_8y]
  | some p =>
    have hm : p ∈ ice_depr_grid := List.mem_of_find?_eq_some hf
    fin_cases hm <;> norm_num

theorem dealer_margin_bounds (b : String) :
    0 ≤ dealer_margin b ∧ dealer_margin b ≤ 1 := by
  unfold dealer_margin
  split_ifs <;> norm_num

theorem refurb_nonneg (b : String) (e : Bool) :
    0 ≤ (if e then refurbishment_cost_ev b else refurbishment_cost_ice b) := by
  unfold refurbishment_cost_ev refurbishment_cost_ice
  split_ifs <;> norm_num

theorem scrap_values_nonneg (b : String) : 0 ≤ scrap_values b := by
  unfold scrap_values
  split_ifs <;> norm_num

theorem scrap_values_intCast (b : String) :
    ((pyInt (scrap_values b) : ℤ) : ℚ) = scrap_values b := by
  unfold scrap_values
  split_ifs <;> decide

theorem ice_base_weight_cases (a : ℚ) :
    ice_base_weight a = 7/10 ∨ ice_base_weight a = 6/10 ∨ ice_base_weight a = 1/2 := by
  unfold ice_base_weight market_weight_age_under_3 market_weight_age_3_to_6
    market_weight_age_over_6
  split_ifs <;> simp

theorem ice_used_weight_bounds (a d : ℚ) :
    3/10 ≤ ice_used_weight a d ∧ ice_used_weight a d ≤ 7/10 := by
  have hb := ice_base_weight_cases a
  unfold ice_used_weight ev_min_market_blend
  split_ifs with h
  · constructor
    · exact le_max_left _ _
    · rcases hb with hb | hb | hb <;> rw [hb] <;>
        exact max_le (by norm_num) (by norm_num)
  · rcases hb with hb | hb | hb <;> rw [hb] <;> norm_num

theorem ev_base_weight_cases (a : ℚ) :
    ev_base_weight a = 6/10 ∨ ev_base_weight a = 1/2 := by
  unfold ev_base_weight
  split_ifs <;> simp

theorem ev_used_weight_bounds (a d : ℚ) :
    3/10 ≤ ev_used_weight a d ∧ ev_used_weight a d ≤ 6/10 := by
  have hb := ev_base_weight_cases a
  unfold ev_used_weight ev_min_market_blend
  split_ifs with h
  · constructor
    · exact le_max_left _ _
    · rcases hb with hb | hb <;> rw [hb] <;>
        exact max_le (by norm_num) (by norm_num)
  · rcases hb with hb | hb <;> rw [hb] <;> norm_num

/-- Convex blends of non-negative values with a weight in [0,1] are
non-negative. -/
theorem blend_nonneg {mk b w : ℚ} (hm : 0 ≤ mk) (hb : 0 ≤ b)
    (h0 : 0 ≤ w) (h1 : w ≤ 1) : 0 ≤ mk * w + b * (1 - w) :=
  add_nonneg (mul_nonneg hm h0) (mul_nonneg hb (by linarith))

-- ---------------------------------------------------------------------
-- Engine-level lemmas
-- ---------------------------------------------------------------------

theorem ice_hist_nonneg (p : Payload) (age : ℚ) {x : ℚ}
    (hh : ∀ y, p.historical_onroad_price = some y → 0 ≤ y)
    (hce : ∀ y, p.current_ex_showroom = some y → 0 ≤ y)
    (hx : ice_hist p age = some x) : 0 ≤ x := by
  unfold ice_hist at hx
  cases hho : p.historical_onroad_price with
  | some y =>
    rw [hho] at hx
    cases hco : p.current_ex_showroom <;> rw [hco] at hx <;>
      simp only [Option.some.injEq] at hx <;> subst hx <;> exact hh y hho
  | none =>
    rw [hho] at hx
    cases hco : p.current_ex_showroom with
    | none => rw [hco] at hx; exact absurd hx (by simp)
    | some ce =>
      rw [hco] at hx
      simp only [Option.some.injEq] at hx
      subst hx
      have hc := clamp_le age (show (0:ℚ) ≤ 10 by norm_num)
      have hc0 := le_clamp age 0 10
      exact mul_nonneg (hce ce hco) (by linarith)

theorem ice_mileage_factor_nonneg {avg : ℤ}
    (havg : ((avg : ℚ) - ice_expected_annual_km) * ice_mileage_penalty_per_1000km_over ≤ 1000) :
    0 ≤ ice_mileage_factor avg := by
  simp only [ice_mileage_factor]
  split_ifs with h
  · unfold ice_mileage_penalty_per_1000km_over at *
    linarith
  · have := abs_nonneg ((avg : ℚ) - ice_expected_annual_km)
    unfold ice_mileage_bonus_per_1000km_under
    nlinarith

theorem ice_lifecycle_factor_nonneg (p : Payload) : 0 ≤ ice_lifecycle_factor p := by
  unfold ice_lifecycle_factor discontinued_penalty new_gen_penalty
  split_ifs <;> norm_num

theorem ice_panic_factor_nonneg (p : Payload) (a : ℚ) : 0 ≤ ice_panic_factor p a := by
  unfold ice_panic_factor ncr_diesel_panic_penalty
  split_ifs <;> norm_num

theorem ice_south_factor_nonneg (s : String) : 0 ≤ ice_south_factor s := by
  unfold ice_south_factor south_multiplier
  split_ifs <;> norm_num

theorem ice_book_nonneg (p : Payload) (m : Metrics) (hist : ℚ) (hh : 0 ≤ hist)
    (havg : (((m.avg_annual_running : ℤ) : ℚ) - ice_expected_annual_km) *
              ice_mileage_penalty_per_1000km_over ≤ 1000) :
    0 ≤ ice_book p m hist := by
  unfold ice_book
  have h1 : 0 ≤ 1 - choose_depr_from_grid m.age_years := by
    linarith [(choose_depr_bounds m.age_years).2]
  exact mul_nonneg (mul_nonneg (mul_nonneg (mul_nonneg (mul_nonneg hh h1)
    (ice_mileage_factor_nonneg havg)) (ice_lifecycle_factor_nonneg p))
    (ice_panic_factor_nonneg p m.age_years)) (ice_south_factor_nonneg p.rto_code)

theorem ice_blended_nonneg (p : Payload) (age : ℚ) {b : ℚ} (hb : 0 ≤ b) :
    0 ≤ ice_blended p age b := by
  simp only [ice_blended]
  cases p.market_listings_mean with
  | none => exact hb
  | some mk =>
    dsimp only
    split_ifs with hmk
    · have hw := ice_used_weight_bounds age (divergence mk b)
      exact blend_nonneg (le_of_lt hmk) hb (by linarith [hw.1]) (by linarith [hw.2])
    · exact hb

theorem ice_fair_nonneg (p : Payload) (m : Metrics) (r : IceResult)
    (hh : ∀ y, p.historical_onroad_price = some y → 0 ≤ y)
    (hce : ∀ y, p.current_ex_showroom = some y → 0 ≤ y)
    (havg : ¬(ice_ncr_diesel p = true ∧ m.age_years ≥ ncr_diesel_scrap_age_years) →
      (((m.avg_annual_running : ℤ) : ℚ) - ice_expected_annual_km) *
        ice_mileage_penalty_per_1000km_over ≤ 1000)
    (hok : ice_engine p m = .ok r) : 0 ≤ r.fair_market_retail_value := by
  unfold ice_engine at hok
  cases hhist : ice_hist p m.age_years with
  | none => rw [hhist] at hok; exact absurd hok (by simp)
  | some hist =>
    rw [hhist] at hok
    simp only [] at hok
    have hist0 : 0 ≤ hist := ice_hist_nonneg p m.age_years hh hce hhist
    split_ifs at hok with hscrap hz
    · injection hok with hok
      subst hok
      exact scrap_values_nonneg _
    · injection hok with hok
      subst hok
      have hbook := ice_book_nonneg p m hist hist0 (havg hscrap)
      have hbl := ice_blended_nonneg p m.age_years hbook
      have hret : 0 ≤ ice_blended p m.age_years (ice_book p m hist) *
          negotiation_buffer_default :=
        mul_nonneg hbl (by norm_num [negotiation_buffer_default])
      exact_mod_cast Int.cast_nonneg.mpr (pyRound_nonneg hret)

theorem ev_intrinsic_nonneg (p : Payload) (m : Metrics) (bk : ℚ) :
    0 ≤ ev_intrinsic p m bk := by
  simp only [ev_intrinsic]
  exact le_max_right _ _

theorem ev_blended_nonneg (p : Payload) (age : ℚ) {b : ℚ} (hb : 0 ≤ b) :
    0 ≤ ev_blended p age b := by
  simp only [ev_blended]
  cases p.market_listings_mean with
  | none => exact hb
  | some mk =>
    dsimp only
    split_ifs with hmk
    · have hw := ev_used_weight_bounds age (divergence mk b)
      exact blend_nonneg (le_of_lt hmk.2) hb (by linarith [hw.1]) (by linarith [hw.2])
    · exact hb

theorem ev_fair_nonneg (p : Payload) (m : Metrics) (r : EvResult)
    (hok : ev_engine p m = .ok r) : 0 ≤ r.fair_market_retail_value := by
  unfold ev_engine at hok
  cases hbk : p.battery_capacity_kwh with
  | none => rw [hbk] at hok; exact absurd hok (by simp)
  | some bk =>
    rw [hbk] at hok
    simp only [] at hok
    split_ifs at hok with hz
    injection hok with hok
    subst hok
    exact pyRound_nonneg (ev_blended_nonneg p m.age_years (ev_intrinsic_nonneg p m bk))

theorem compute_dealer_offer_bounds (n : ℤ) (b : String) (e : Bool) (hn : 0 ≤ n) :
    0 ≤ (compute_dealer_offer (n : ℚ) b e).1 ∧ (compute_dealer_offer (n : ℚ) b e).1 ≤ n := by
  simp only [compute_dealer_offer]
  constructor
  · exact pyRound_nonneg (le_max_right _ _)
  · apply pyRound_le_of_le_intCast
    have h1 := dealer_margin_bounds b
    have h2 := refurb_nonneg b e
    have hn' : (0:ℚ) ≤ (n : ℚ) := by exact_mod_cast hn
    have hmul : 0 ≤ (n : ℚ) * dealer_margin b := mul_nonneg hn' h1.1
    refine max_le (by nlinarith) hn'

theorem ice_hist_none_iff (p : Payload) (a : ℚ) :
    ice_hist p a = none ↔
      (p.historical_onroad_price = none ∧ p.current_ex_showroom = none) := by
  unfold ice_hist
  cases p.historical_onroad_price <;> cases p.current_ex_showroom <;> simp

/-- `value_vehicle` fails exactly when the EV path lacks a battery
capacity, the ICE path lacks both price inputs, or the ICE market branch
divides by an exactly-zero divergence denominator (Python
`ZeroDivisionError`); the EV divergence denominator is provably positive,
so the EV guard contributes no case. -/
theorem value_vehicle_fail_iff (today : PyDate) (p : Payload) :
    isOkB (value_vehicle today p) = false ↔
      ((stripL (lowerL p.fuel_type) = "electric".toList ∧
          p.battery_capacity_kwh = none) ∨
       (stripL (lowerL p.fuel_type) ≠ "electric".toList ∧
          p.historical_onroad_price = none ∧ p.current_ex_showroom = none) ∨
       (stripL (lowerL p.fuel_type) ≠ "electric".toList ∧
          ice_div_zero today p)) := by
  unfold value_vehicle
  by_cases hel : stripL (lowerL p.fuel_type) = "electric".toList
  · rw [if_pos hel]
    unfold ev_engine
    cases hb : p.battery_capacity_kwh with
    | none =>
      refine iff_of_true ?_ (Or.inl ⟨hel, rfl⟩)
      simp [isOkB, Except.map]
    | some bk =>
      have hgt : 0 < ev_intrinsic p (derive_metrics today p).1 bk + pyEps := by
        have h0 := ev_intrinsic_nonneg p (derive_metrics today p).1 bk
        have he : (0:ℚ) < pyEps := by norm_num [pyEps]
        linarith
      have hne : ¬(ev_market_active p = true ∧
          ev_intrinsic p (derive_metrics today p).1 bk + pyEps = 0) :=
        fun hc => absurd hc.2 (ne_of_gt hgt)
      refine iff_of_false ?_ ?_
      · simp [isOkB, Except.map, if_neg hne]
      · rintro (⟨_, hbn⟩ | ⟨hne', _⟩ | ⟨hne', _⟩)
        · exact Option.noConfusion hbn
        · exact hne' hel
        · exact hne' hel
  · rw [if_neg hel]
    unfold ice_engine
    cases hih : ice_hist p (derive_metrics today p).1.age_years with
    | none =>
      have hprices := (ice_hist_none_iff p _).mp hih
      refine iff_of_true ?_ (Or.inr (Or.inl ⟨hel, hprices.1, hprices.2⟩))
      simp [isOkB, Except.map]
    | some h =>
      have hprices : ¬(p.historical_onroad_price = none ∧ p.current_ex_showroom = none) := by
        intro hc
        rw [← ice_hist_none_iff p (derive_metrics today p).1.age_years] at hc
        rw [hih] at hc
        exact absurd hc (by simp)
      have hdz : ice_div_zero today p =
          (¬(ice_ncr_diesel p = true ∧
              (derive_metrics today p).1.age_years ≥ ncr_diesel_scrap_age_years) ∧
           (ice_market_active p = true ∧
             ice_book p (derive_metrics today p).1 h + pyEps = 0)) := by
        unfold ice_div_zero
        rw [hih]
      split_ifs with hscrap
      · refine iff_of_false ?_ ?_
        · simp [isOkB, Except.map]
        · rintro (⟨he, _⟩ | ⟨_, hb⟩ | ⟨_, hdzT⟩)
          · exact hel he
          · exact hprices hb
          · rw [hdz] at hdzT
            exact hdzT.1 hscrap
      · simp only []
        split_ifs with hz
        · refine iff_of_true ?_ (Or.inr (Or.inr ⟨hel, ?_⟩))
          · simp [isOkB, Except.map]
          · rw [hdz]
            exact ⟨hscrap, hz⟩
        · refine iff_of_false ?_ ?_
          · simp [isOkB, Except.map]
          · rintro (⟨he, _⟩ | ⟨_, hb⟩ | ⟨_, hdzT⟩)
            · exact hel he
            · exact hprices hb
            · rw [hdz] at hdzT
              exact hz hdzT.2

/-- On the NCR-diesel scrap path the orchestrator returns the body-type
scrap value as retail, and the dealer offer is that scrap value through
the dealer-economics formula. -/
theorem scrap_run (today : PyDate) (p : Payload) (out : VOut)
    (hnotE : stripL (lowerL p.fuel_type) ≠ "electric".toList)
    (hncr : ice_ncr_diesel p = true)
    (hage : (derive_metrics today p).1.age_years ≥ ncr_diesel_scrap_age_years)
    (h : value_vehicle today p = .ok out) :
    (out.fair_market_retail_value : ℚ) = scrap_values (p.body_type.getD "Hatchback") ∧
    out.dealer_purchase_offer =
      pyRound (max (scrap_values (p.body_type.getD "Hatchback") *
        (1 - dealer_margin (p.body_type.getD "Hatchback")) -
        refurbishment_cost_ice (p.body_type.getD "Hatchback")) 0) := by
  unfold value_vehicle at h
  rw [if_neg hnotE] at h
  unfold ice_engine at h
  cases hih : ice_hist p (derive_metrics today p).1.age_years with
  | none => rw [hih] at h; simp [Except.map] at h
  | some hist =>
    rw [hih] at h
    simp only [Except.map] at h
    rw [if_pos (And.intro hncr hage)] at h
    simp only [Except.map, Except.ok.injEq] at h
    subst h
    unfold assemble_ice compute_dealer_offer
    dsimp only
    constructor
    · exact scrap_values_intCast _
    · rw [scrap_values_intCast]
      simp

theorem pyRoundN3_bounds {s : ℚ} (h1 : 55/100 ≤ s) (h2 : s ≤ 1) :
    55/100 ≤ pyRoundN s 3 ∧ pyRoundN s 3 ≤ 1 := by
  unfold pyRoundN
  have e : ((10 ^ (3:ℕ) : ℕ) : ℚ) = 1000 := by norm_num
  rw [e]
  have hl : (550 : ℤ) ≤ pyRound (s * 1000) := by
    have h : ((550 : ℤ) : ℚ) ≤ s * 1000 := by push_cast; linarith
    exact le_trans (Int.le_floor.mpr h) (floor_le_pyRound _)
  have hu : pyRound (s * 1000) ≤ (1000 : ℤ) :=
    pyRound_le_of_le_intCast (by push_cast; linarith)
  have hl' : ((550 : ℤ) : ℚ) ≤ (pyRound (s * 1000) : ℚ) := by exact_mod_cast hl
  have hu' : ((pyRound (s * 1000) : ℤ) : ℚ) ≤ ((1000 : ℤ) : ℚ) := by exact_mod_cast hu
  constructor <;> push_cast at hl' hu' ⊢ <;> linarith

theorem ev_soh_bounds (deg age : ℚ) : 55/100 ≤ ev_soh deg age ∧ ev_soh deg age ≤ 1 := by
  unfold ev_soh ev_min_soh
  exact ⟨le_clamp _ _ _, clamp_le _ (by norm_num)⟩

-- ---------------------------------------------------------------------
-- Sanity checks: kernel-checked evaluation of the embedding
-- ---------------------------------------------------------------------

example : choose_depr_from_grid 5 = 35/100 := by decide
example : choose_depr_from_grid 8 = 50/100 := by decide
example : choose_depr_from_grid (17/2) = 60/100 := by decide
example : pyRound (1/2) = 0 := by decide
example : pyRound (3/2) = 2 := by decide
example : pyRound (-1/2) = 0 := by decide
example : pyInt (-7/2) = -3 := by decide
example : parse_date_safe "2021-10-12" = some ⟨2021, 10, 12⟩ := by decide
example : parse_date_safe "2021-02-29" = none := by decide
example : parse_date_safe "not-a-date" = none := by decide
example : containsL (lowerL "New Delhi") "delhi".toList = true := by decide
example : containsL (lowerL "Mumbai") "delhi".toList = false := by decide
example : stripL " Petrol ".toList = "Petrol".toList := by decide

set_option maxRecDepth 8000 in
example : okFair (value_vehicle t0 scenarioA) = 383818 := by decide

example : calculate_idv t0 staleIdv = .marketRefreshRequired := by decide

-- ---------------------------------------------------------------------
-- Claim theorems
-- ---------------------------------------------------------------------

/-- **C1** (amended): for every valuation that completes successfully on a
valid input (non-negative price inputs), the outputs satisfy
`0 ≤ dealer_purchase_offer ≤ fair_market_retail_value`, provided that *on
the ICE non-scrap path only* the mileage over-use penalty does not exceed
100% (average annual running of at most 12000 + 1000/0.006 ≈ 178,667 km);
the hypothesis is conditional, so EV and scrap-path inputs are covered
with no mileage restriction.  (The unrestricted claim is refuted by
`C1_counterexample`.) -/
theorem C1_value_bounds (today : PyDate) (p : Payload) (out : VOut)
    (hh : ∀ y, p.historical_onroad_price = some y → 0 ≤ y)
    (hce : ∀ y, p.current_ex_showroom = some y → 0 ≤ y)
    (havg : stripL (lowerL p.fuel_type) ≠ "electric".toList →
      ¬(ice_ncr_diesel p = true ∧
          (derive_metrics today p).1.age_years ≥ ncr_diesel_scrap_age_years) →
      (((derive_metrics today p).1.avg_annual_running : ℚ) - ice_expected_annual_km) *
        ice_mileage_penalty_per_1000km_over ≤ 1000)
    (h : value_vehicle today p = .ok out) :
    0 ≤ out.fair_market_retail_value ∧ 0 ≤ out.dealer_purchase_offer ∧
      out.dealer_purchase_offer ≤ out.fair_market_retail_value := by
  unfold value_vehicle at h
  split_ifs at h with hel
  · cases hev : ev_engine p (derive_metrics today p).1 with
    | error e => rw [hev] at h; simp [Except.map] at h
    | ok r =>
      rw [hev] at h
      simp only [Except.map, Except.ok.injEq] at h
      subst h
      simp only [assemble_ev]
      have hf : 0 ≤ r.fair_market_retail_value := ev_fair_nonneg p _ r hev
      have hd := compute_dealer_offer_bounds r.fair_market_retail_value
        (p.body_type.getD "Hatchback") true hf
      exact ⟨hf, hd.1, hd.2⟩
  · cases hice : ice_engine p (derive_metrics today p).1 with
    | error e => rw [hice] at h; simp [Except.map] at h
    | ok r =>
      rw [hice] at h
      simp only [Except.map, Except.ok.injEq] at h
      subst h
      simp only [assemble_ice]
      have hf : 0 ≤ r.fair_market_retail_value :=
        ice_fair_nonneg p _ r hh hce (havg hel) hice
      have hfi : 0 ≤ pyInt r.fair_market_retail_value := pyInt_nonneg hf
      have hd := compute_dealer_offer_bounds (pyInt r.fair_market_retail_value)
        (p.body_type.getD "Hatchback") false hfi
      exact ⟨hfi, hd.1, hd.2⟩

set_option maxRecDepth 8000 in
/-- **C1** counterexample: a valid 10-year-old petrol hatchback with a
5,000,000 km odometer (500,000 km/year) completes successfully with
`fair_market_retail_value = -289971 < 0` while the dealer offer is floored
at 0, so `dealer ≤ fair` and `0 ≤ fair` both fail. -/
theorem C1_counterexample :
    isOkB (value_vehicle t0 overdriven) = true ∧
    okFair (value_vehicle t0 overdriven) = -289971 ∧
    okDealer (value_vehicle t0 overdriven) = 0 := by decide

set_option maxRecDepth 8000 in
/-- **C1** witness: the amended theorem applied to Scenario A. -/
theorem C1_witness :
    0 ≤ okFair (value_vehicle t0 scenarioA) ∧
    0 ≤ okDealer (value_vehicle t0 scenarioA) ∧
    okDealer (value_vehicle t0 scenarioA) ≤ okFair (value_vehicle t0 scenarioA) := by
  cases hv : value_vehicle t0 scenarioA with
  | error e =>
    have hok : isOkB (value_vehicle t0 scenarioA) = true := by decide
    rw [hv] at hok
    exact absurd hok (by simp [isOkB])
  | ok out =>
    have h := C1_value_bounds t0 scenarioA out
      (by intro y hy
          rw [show scenarioA.historical_onroad_price = none from rfl] at hy
          exact Option.noConfusion hy)
      (by intro y hy
          rw [show scenarioA.current_ex_showroom = some (650000:ℚ) from rfl] at hy
          injection hy with hy
          subst hy
          norm_num)
      (fun _ _ => by decide) hv
    simp only [okFair, okDealer, hv]
    exact h

/-- **C7** (amended): a single valuation call errors (propagating with no
partial result) exactly when the Electric path lacks
`battery_capacity_kwh`, the non-Electric path lacks both
`historical_onroad_price` and `current_ex_showroom`, or — one further
case the claim omits — the ICE market branch runs with a book value of
exactly −10⁻⁶, where Python's divergence computation divides by zero
(`ZeroDivisionError`); in every other case no error is raised.  The EV
divergence denominator is provably positive, so the EV path adds no such
case.  (The original "exactly the two missing-input cases" is refuted by
`C7_counterexample`.) -/
theorem C7_error_exactly (today : PyDate) (p : Payload) :
    isOkB (value_vehicle today p) = false ↔
      ((stripL (lowerL p.fuel_type) = "electric".toList ∧
          p.battery_capacity_kwh = none) ∨
       (stripL (lowerL p.fuel_type) ≠ "electric".toList ∧
          p.historical_onroad_price = none ∧ p.current_ex_showroom = none) ∨
       (stripL (lowerL p.fuel_type) ≠ "electric".toList ∧
          ice_div_zero today p)) :=
  value_vehicle_fail_iff today p

set_option maxRecDepth 8000 in
/-- **C7** counterexample: a petrol input with a historical price of
−2·10⁻⁶ at age 8 (book value exactly −10⁻⁶, mileage factor exactly 1) and
a market mean of 1: a price input is present, yet the call errors with the
divergence division's `ZeroDivisionError` — refuting "in every other case
no such error is raised". -/
theorem C7_counterexample :
    isOkB (value_vehicle t0 divZero) = false ∧
    stripL (lowerL divZero.fuel_type) ≠ "electric".toList ∧
    ¬(divZero.historical_onroad_price = none ∧
      divZero.current_ex_showroom = none) := by decide

/-- **C8**: when the registration date is absent or unparseable
(`strptime` semantics: 4-digit year, 1-2-digit month/day, valid calendar
day) the valuation does not raise for that reason: age and months default
to 0, the warning is appended to the audit log, and the call errors only
under the general missing-input / zero-divergence conditions — never for
the date (it proceeds treating the vehicle as new). -/
theorem C8_bad_date (today : PyDate) (p : Payload)
    (hbad : p.reg_date.bind parse_date_safe = none) :
    (derive_metrics today p).1.age_years = 0 ∧
    (derive_metrics today p).1.age_months = 0 ∧
    "reg_date missing or invalid; assuming age 0." ∈ (derive_metrics today p).2 ∧
    (isOkB (value_vehicle today p) = false ↔
      ((stripL (lowerL p.fuel_type) = "electric".toList ∧
          p.battery_capacity_kwh = none) ∨
       (stripL (lowerL p.fuel_type) ≠ "electric".toList ∧
          p.historical_onroad_price = none ∧ p.current_ex_showroom = none) ∨
       (stripL (lowerL p.fuel_type) ≠ "electric".toList ∧
          ice_div_zero today p))) := by
  have hage : age_from_reg_date today p.reg_date = none := by
    unfold age_from_reg_date
    rw [hbad]
  refine ⟨?_, ?_, ?_, value_vehicle_fail_iff today p⟩
  all_goals unfold derive_metrics
  all_goals rw [hage]
  all_goals cases p.odometer
  all_goals simp

/-- **C8** witness: a payload with an unparseable date, valued through the
amended statement. -/
theorem C8_witness :
    (derive_metrics t0 badDate).1.age_years = 0 ∧
    (derive_metrics t0 badDate).1.age_months = 0 ∧
    "reg_date missing or invalid; assuming age 0." ∈ (derive_metrics t0 badDate).2 ∧
    (isOkB (value_vehicle t0 badDate) = false ↔
      ((stripL (lowerL badDate.fuel_type) = "electric".toList ∧
          badDate.battery_capacity_kwh = none) ∨
       (stripL (lowerL badDate.fuel_type) ≠ "electric".toList ∧
          badDate.historical_onroad_price = none ∧
          badDate.current_ex_showroom = none) ∨
       (stripL (lowerL badDate.fuel_type) ≠ "electric".toList ∧
          ice_div_zero t0 badDate))) :=
  C8_bad_date t0 badDate (by decide)

/-- **C9**: the variant-ratio IDV calculator's freshness gate fires exactly
when `market_cache_age_days > 45`, and when it fires no IDV value is
computed. -/
theorem C9_cache_gate (now : PyDate) (i : IdvInput) :
    (isRefreshIdv (calculate_idv now i) =
      decide (i.market_cache_age_days > MARKET_CACHE_MAX_AGE_DAYS)) ∧
    (i.market_cache_age_days > MARKET_CACHE_MAX_AGE_DAYS →
      hasIdv (calculate_idv now i) = false) := by
  constructor
  · unfold calculate_idv
    split_ifs with h1 h2 <;> simp [isRefreshIdv, h1]
  · intro hgt
    unfold calculate_idv
    rw [if_pos hgt]
    rfl

/-- **C9** witness: the gate on a 50-day-old market cache. -/
theorem C9_witness :
    isRefreshIdv (calculate_idv t0 staleIdv) = true ∧
    hasIdv (calculate_idv t0 staleIdv) = false := by
  have h := C9_cache_gate t0 staleIdv
  refine ⟨?_, h.2 (by decide)⟩
  rw [h.1]
  decide

/-- **C2**: for every diesel vehicle whose city or RTO code indicates the
Delhi-NCR region and whose derived age is ≥ 9.5 years, provided at least
one price input is present (so the call does not fail earlier for missing
prices), the valuation succeeds and returns exactly the configured scrap
value for the body type as the fair market retail value — in particular
the result is unchanged under any replacement of `market_listings_mean`,
and involves neither the negotiation buffer nor the South-India premium. -/
theorem C2_scrap_shortcircuit (today : PyDate) (p : Payload)
    (hd : lowerL p.fuel_type = "diesel".toList)
    (hnotE : stripL (lowerL p.fuel_type) ≠ "electric".toList)
    (hregion : (containsL (lowerL p.city) "delhi".toList ||
                startsW (lowerL p.city) "ncr".toList ||
                startsW (upperL p.rto_code) "DL".toList) = true)
    (hage : (derive_metrics today p).1.age_years ≥ ncr_diesel_scrap_age_years)
    (hprice : ¬(p.historical_onroad_price = none ∧ p.current_ex_showroom = none)) :
    ∃ out, value_vehicle today p = .ok out ∧
      (out.fair_market_retail_value : ℚ) = scrap_values (p.body_type.getD "Hatchback") ∧
      ∀ mm' out', value_vehicle today { p with market_listings_mean := mm' } = .ok out' →
        out'.fair_market_retail_value = out.fair_market_retail_value := by
  have hncr : ice_ncr_diesel p = true := by
    unfold ice_ncr_diesel
    rw [hd, hregion]
    decide
  cases hv : value_vehicle today p with
  | error e =>
    exfalso
    have hfail : isOkB (value_vehicle today p) = false := by rw [hv]; rfl
    rw [value_vehicle_fail_iff] at hfail
    rcases hfail with ⟨he, _⟩ | ⟨_, hboth⟩ | ⟨_, hdz⟩
    · exact hnotE he
    · exact hprice hboth
    · unfold ice_div_zero at hdz
      cases hih : ice_hist p (derive_metrics today p).1.age_years with
      | none =>
        rw [hih] at hdz
        exact hdz
      | some hh =>
        rw [hih] at hdz
        exact hdz.1 (And.intro hncr hage)
  | ok out =>
    refine ⟨out, rfl, (scrap_run today p out hnotE hncr hage hv).1, ?_⟩
    intro mm' out' hv'
    have hnotE' : stripL (lowerL ({ p with market_listings_mean := mm' } : Payload).fuel_type) ≠
        "electric".toList := hnotE
    have hncr' : ice_ncr_diesel { p with market_listings_mean := mm' } = true := hncr
    have hage' : (derive_metrics today { p with market_listings_mean := mm' }).1.age_years ≥
        ncr_diesel_scrap_age_years := hage
    have h2 := scrap_run today { p with market_listings_mean := mm' } out' hnotE' hncr' hage' hv'
    have h1 := scrap_run today p out hnotE hncr hage hv
    exact_mod_cast h2.1.trans h1.1.symm

set_option maxRecDepth 8000 in
/-- **C2** witness: Scenario C (10-year-old Delhi diesel Honda City,
Sedan) — the valuation returns the Sedan scrap value regardless of the
market mean. -/
theorem C2_witness :
    ∃ out, value_vehicle t0 scenarioC = .ok out ∧
      (out.fair_market_retail_value : ℚ) =
        scrap_values (scenarioC.body_type.getD "Hatchback") ∧
      ∀ mm' out', value_vehicle t0 { scenarioC with market_listings_mean := mm' } = .ok out' →
        out'.fair_market_retail_value = out.fair_market_retail_value :=
  C2_scrap_shortcircuit t0 scenarioC (by decide) (by decide) (by decide) (by decide)
    (by intro hc
        rw [show scenarioC.current_ex_showroom = some (1200000:ℚ) from rfl] at hc
        exact Option.noConfusion hc.2)

/-- **C10**: when the NCR-diesel scrap short-circuit fires, the scrap value
still flows through the dealer-economics step: the dealer offer equals the
body-type scrap value reduced by the body-type margin and the full ICE
refurbishment cost, floored at zero. -/
theorem C10_scrap_dealer_econ (today : PyDate) (p : Payload) (out : VOut)
    (hd : lowerL p.fuel_type = "diesel".toList)
    (hnotE : stripL (lowerL p.fuel_type) ≠ "electric".toList)
    (hregion : (containsL (lowerL p.city) "delhi".toList ||
                startsW (lowerL p.city) "ncr".toList ||
                startsW (upperL p.rto_code) "DL".toList) = true)
    (hage : (derive_metrics today p).1.age_years ≥ ncr_diesel_scrap_age_years)
    (h : value_vehicle today p = .ok out) :
    out.dealer_purchase_offer =
      pyRound (max (scrap_values (p.body_type.getD "Hatchback") *
        (1 - dealer_margin (p.body_type.getD "Hatchback")) -
        refurbishment_cost_ice (p.body_type.getD "Hatchback")) 0) ∧
    (out.fair_market_retail_value : ℚ) = scrap_values (p.body_type.getD "Hatchback") := by
  have hncr : ice_ncr_diesel p = true := by
    unfold ice_ncr_diesel
    rw [hd, hregion]
    decide
  have hs := scrap_run today p out hnotE hncr hage h
  exact ⟨hs.2, hs.1⟩

set_option maxRecDepth 8000 in
/-- **C10** witness: the scrap-valued Luxury diesel (scrap 60000, margin
15%, refurbishment 60000): the dealer offer is exactly 0 while the retail
value is the positive scrap constant. -/
theorem C10_witness :
    ∃ out, value_vehicle t0 scrapLuxury = .ok out ∧
      out.dealer_purchase_offer = 0 ∧
      (out.fair_market_retail_value : ℚ) = 60000 := by
  cases hv : value_vehicle t0 scrapLuxury with
  | error e =>
    have hok : isOkB (value_vehicle t0 scrapLuxury) = true := by decide
    rw [hv] at hok
    exact absurd hok (by simp [isOkB])
  | ok out =>
    have h := C10_scrap_dealer_econ t0 scrapLuxury out (by decide) (by decide)
      (by decide) (by decide) hv
    refine ⟨out, rfl, ?_, ?_⟩
    · rw [h.1]
      decide
    · rw [h.2]
      decide

/-- **C3** counterexample: at age exactly 8 years (the highest grid
breakpoint) the lookup returns the 8-year grid value 50%, not the 60%
floor — refuting "for every age ≥ the highest breakpoint". -/
theorem C3_counterexample :
    choose_depr_from_grid 8 = 50/100 ∧
    ¬(choose_depr_from_grid 8 = ice_depr_floor_after_8y) := by decide

/-- **C3** (amended): the base-depreciation lookup is the "grid value at
the smallest breakpoint ≥ age" function (no interpolation), and for every
age *strictly greater* than the highest breakpoint (8 years) it equals the
configured 60% floor, no matter how far beyond. -/
theorem C3_grid_lookup :
    (∀ a : ℚ, choose_depr_from_grid a = grid_value_spec a) ∧
    (∀ a : ℚ, 8 < a → choose_depr_from_grid a = ice_depr_floor_after_8y) := by
  have key : ∀ a : ℚ, choose_depr_from_grid a = grid_value_spec a := by
    intro a
    unfold choose_depr_from_grid grid_value_spec ice_depr_grid
    have haux : (2⁻¹ : ℚ) < 1 := by norm_num
    rcases le_or_lt a (2⁻¹ : ℚ) with h1 | h1
    · simp [List.find?, h1]
    rcases le_or_lt a (1 : ℚ) with h2 | h2
    · have k1 : ¬ a ≤ (2⁻¹ : ℚ) := by rw [not_le]; linarith
      simp [List.find?, k1, h2]
    rcases le_or_lt a (2 : ℚ) with h3 | h3
    · have k1 : ¬ a ≤ (2⁻¹ : ℚ) := by rw [not_le]; linarith
      have k2 : ¬ a ≤ (1 : ℚ) := by rw [not_le]; linarith
      simp [List.find?, k1, k2, h3]
    rcases le_or_lt a (3 : ℚ) with h4 | h4
    · have k1 : ¬ a ≤ (2⁻¹ : ℚ) := by rw [not_le]; linarith
      have k2 : ¬ a ≤ (1 : ℚ) := by rw [not_le]; linarith
      have k3 : ¬ a ≤ (2 : ℚ) := by rw [not_le]; linarith
      simp [List.find?, k1, k2, k3, h4]
    rcases le_or_lt a (4 : ℚ) with h5 | h5
    · have k1 : ¬ a ≤ (2⁻¹ : ℚ) := by rw [not_le]; linarith
      have k2 : ¬ a ≤ (1 : ℚ) := by rw [not_le]; linarith
      have k3 : ¬ a ≤ (2 : ℚ) := by rw [not_le]; linarith
      have k4 : ¬ a ≤ (3 : ℚ) := by rw [not_le]; linarith
      simp [List.find?, k1, k2, k3, k4, h5]
    rcases le_or_lt a (5 : ℚ) with h6 | h6
    · have k1 : ¬ a ≤ (2⁻¹ : ℚ) := by rw [not_le]; linarith
      have k2 : ¬ a ≤ (1 : ℚ) := by rw [not_le]; linarith
      have k3 : ¬ a ≤ (2 : ℚ) := by rw [not_le]; linarith
      have k4 : ¬ a ≤ (3 : ℚ) := by rw [not_le]; linarith
      have k5 : ¬ a ≤ (4 : ℚ) := by rw [not_le]; linarith
      simp [List.find?, k1, k2, k3, k4, k5, h6]
    rcases le_or_lt a (6 : ℚ) with h7 | h7
    · have k1 : ¬ a ≤ (2⁻¹ : ℚ) := by rw [not_le]; linarith
      have k2 : ¬ a ≤ (1 : ℚ) := by rw [not_le]; linarith
      have k3 : ¬ a ≤ (2 : ℚ) := by rw [not_le]; linarith
      have k4 : ¬ a ≤ (3 : ℚ) := by rw [not_le]; linarith
      have k5 : ¬ a ≤ (4 : ℚ) := by rw [not_le]; linarith
      have k6 : ¬ a ≤ (5 : ℚ) := by rw [not_le]; linarith
      simp [List.find?, k1, k2, k3, k4, k5, k6, h7]
    rcases le_or_lt a (7 : ℚ) with h8 | h8
    · have k1 : ¬ a ≤ (2⁻¹ : ℚ) := by rw [not_le]; linarith
      have k2 : ¬ a ≤ (1 : ℚ) := by rw [not_le]; linarith
      have k3 : ¬ a ≤ (2 : ℚ) := by rw [not_le]; linarith
      have k4 : ¬ a ≤ (3 : ℚ) := by rw [not_le]; linarith
      have k5 : ¬ a ≤ (4 : ℚ) := by rw [not_le]; linarith
      have k6 : ¬ a ≤ (5 : ℚ) := by rw [not_le]; linarith
      have k7 : ¬ a ≤ (6 : ℚ) := by rw [not_le]; linarith
      simp [List.find?, k1, k2, k3, k4, k5, k6, k7, h8]
    rcases le_or_lt a (8 : ℚ) with h9 | h9
    · have k1 : ¬ a ≤ (2⁻¹ : ℚ) := by rw [not_le]; linarith
      have k2 : ¬ a ≤ (1 : ℚ) := by rw [not_le]; linarith
      have k3 : ¬ a ≤ (2 : ℚ) := by rw [not_le]; linarith
      have k4 : ¬ a ≤ (3 : ℚ) := by rw [not_le]; linarith
      have k5 : ¬ a ≤ (4 : ℚ) := by rw [not_le]; linarith
      have k6 : ¬ a ≤ (5 : ℚ) := by rw [not_le]; linarith
      have k7 : ¬ a ≤ (6 : ℚ) := by rw [not_le]; linarith
      have k8 : ¬ a ≤ (7 : ℚ) := by rw [not_le]; linarith
      simp [List.find?, k1, k2, k3, k4, k5, k6, k7, k8, h9]
    · have k1 : ¬ a ≤ (2⁻¹ : ℚ) := by rw [not_le]; linarith
      have k2 : ¬ a ≤ (1 : ℚ) := by rw [not_le]; linarith
      have k3 : ¬ a ≤ (2 : ℚ) := by rw [not_le]; linarith
      have k4 : ¬ a ≤ (3 : ℚ) := by rw [not_le]; linarith
      have k5 : ¬ a ≤ (4 : ℚ) := by rw [not_le]; linarith
      have k6 : ¬ a ≤ (5 : ℚ) := by rw [not_le]; linarith
      have k7 : ¬ a ≤ (6 : ℚ) := by rw [not_le]; linarith
      have k8 : ¬ a ≤ (7 : ℚ) := by rw [not_le]; linarith
      have k9 : ¬ a ≤ (8 : ℚ) := by rw [not_le]; linarith
      simp [List.find?, ice_depr_floor_after_8y, k1, k2, k3, k4, k5, k6, k7, k8, k9]
  refine ⟨key, fun a ha => ?_⟩
  rw [key a]
  unfold grid_value_spec ice_depr_floor_after_8y
  have haux : (2⁻¹ : ℚ) < 1 := by norm_num
  have k1 : ¬ a ≤ (2⁻¹ : ℚ) := by rw [not_le]; linarith
  have k2 : ¬ a ≤ (1 : ℚ) := by rw [not_le]; linarith
  have k3 : ¬ a ≤ (2 : ℚ) := by rw [not_le]; linarith
  have k4 : ¬ a ≤ (3 : ℚ) := by rw [not_le]; linarith
  have k5 : ¬ a ≤ (4 : ℚ) := by rw [not_le]; linarith
  have k6 : ¬ a ≤ (5 : ℚ) := by rw [not_le]; linarith
  have k7 : ¬ a ≤ (6 : ℚ) := by rw [not_le]; linarith
  have k8 : ¬ a ≤ (7 : ℚ) := by rw [not_le]; linarith
  have k9 : ¬ a ≤ (8 : ℚ) := by rw [not_le]; linarith
  simp [k1, k2, k3, k4, k5, k6, k7, k8, k9]

/-- **C3** witness: at age 9 (beyond the breakpoint) the lookup equals the
floor and agrees with the spec-side lookup. -/
theorem C3_witness :
    choose_depr_from_grid 9 = ice_depr_floor_after_8y ∧
    choose_depr_from_grid 9 = grid_value_spec 9 :=
  ⟨C3_grid_lookup.2 9 (by norm_num), C3_grid_lookup.1 9⟩

/-- **C5** (amended): whenever a market mean is supplied and the divergence
*strictly exceeds* the configured threshold (35% ICE / 40% EV), the market
weight actually used in blending is strictly less than the age-tier
baseline and never below the configured minimum 0.3; at or below the
threshold the baseline weight is used unchanged.  (Equality at the
threshold, admitted by the claim's "≥", leaves the weight unreduced — see
`C5_counterexample`.) -/
theorem C5_divergence_weights (age d : ℚ) :
    ((d > 35/100 → ice_used_weight age d < ice_base_weight age ∧
        3/10 ≤ ice_used_weight age d) ∧
     (d ≤ 35/100 → ice_used_weight age d = ice_base_weight age)) ∧
    ((d > 40/100 → ev_used_weight age d < ev_base_weight age ∧
        3/10 ≤ ev_used_weight age d) ∧
     (d ≤ 40/100 → ev_used_weight age d = ev_base_weight age)) := by
  refine ⟨⟨fun hd => ?_, fun hd => ?_⟩, ⟨fun hd => ?_, fun hd => ?_⟩⟩
  · unfold ice_used_weight
    rw [if_pos hd]
    rcases ice_base_weight_cases age with hb | hb | hb <;> rw [hb] <;>
      exact ⟨by decide, by decide⟩
  · unfold ice_used_weight
    rw [if_neg (not_lt.mpr hd)]
  · unfold ev_used_weight
    rw [if_pos hd]
    rcases ev_base_weight_cases age with hb | hb <;> rw [hb] <;>
      exact ⟨by decide, by decide⟩
  · unfold ev_used_weight
    rw [if_neg (not_lt.mpr hd)]

set_option maxRecDepth 8000 in
/-- **C5** counterexample: a full ICE valuation whose divergence is exactly
35% (book 650000, market 1.35·(650000 + 10⁻⁶)): the divergence equals the
threshold, yet the weight used is the unreduced baseline 0.6 and the
output is the 60/40 blend — refuting "divergence ≥ threshold strictly
reduces the weight". -/
theorem C5_counterexample :
    divergence (877500 + 7/20000000) 650000 = 35/100 ∧
    okBookIce (value_vehicle t0 boundaryDiv) = 650000 ∧
    ice_used_weight 5 (divergence (877500 + 7/20000000) 650000) = ice_base_weight 5 ∧
    ¬(ice_used_weight 5 (divergence (877500 + 7/20000000) 650000) < ice_base_weight 5) ∧
    okFair (value_vehicle t0 boundaryDiv) = 739310 := by decide

/-- **C5** witness: the amended theorem at age 5 with divergence 50%
(reduced weight, still ≥ 0.3) and 25% (unchanged baseline). -/
theorem C5_witness :
    (ice_used_weight 5 (1/2) < ice_base_weight 5 ∧ 3/10 ≤ ice_used_weight 5 (1/2)) ∧
    ice_used_weight 5 (1/4) = ice_base_weight 5 ∧
    (ev_used_weight 5 (1/2) < ev_base_weight 5 ∧ 3/10 ≤ ev_used_weight 5 (1/2)) ∧
    ev_used_weight 5 (1/4) = ev_base_weight 5 :=
  ⟨(C5_divergence_weights 5 (1/2)).1.1 (by norm_num),
   (C5_divergence_weights 5 (1/4)).1.2 (by norm_num),
   (C5_divergence_weights 5 (1/2)).2.1 (by norm_num),
   (C5_divergence_weights 5 (1/4)).2.2 (by norm_num)⟩

/-- **C6** (amended): for every EV valuation that completes, the returned
battery state of health equals `round(clamp(1 − rate × clamp(age, 0, 20),
0.55, 1.0), 3)` — the chemistry/usage-dependent rate applied to the age
*clamped at 20 years*, then clamped to [0.55, 1.0] and rounded to 3
decimals — and in particular it always lies within [0.55, 1.0].  (The
claim's unclamped-age formula is refuted by `C6_counterexample`.) -/
theorem C6_soh_clamped (today : PyDate) (p : Payload) (out : VOut) (r : EvResult)
    (h : value_vehicle today p = .ok out) (hb : out.breakdown = .ev r) :
    r.battery_soh =
      pyRoundN (ev_soh (ev_annual_deg (ev_chemistry p)
          (derive_metrics today p).1.avg_annual_running)
        (derive_metrics today p).1.age_years) 3 ∧
    55/100 ≤ r.battery_soh ∧ r.battery_soh ≤ 1 := by
  unfold value_vehicle at h
  split_ifs at h with hel
  · cases hev : ev_engine p (derive_metrics today p).1 with
    | error e => rw [hev] at h; simp [Except.map] at h
    | ok r' =>
      rw [hev] at h
      simp only [Except.map, Except.ok.injEq] at h
      subst h
      simp only [assemble_ev] at hb
      injection hb with hb
      subst hb
      unfold ev_engine at hev
      cases hbk : p.battery_capacity_kwh with
      | none => rw [hbk] at hev; exact absurd hev (by simp)
      | some bk =>
        rw [hbk] at hev
        simp only [] at hev
        split_ifs at hev with hz
        simp only [Except.ok.injEq] at hev
        subst hev
        refine ⟨rfl, ?_⟩
        have hs := ev_soh_bounds (ev_annual_deg (ev_chemistry p)
          (derive_metrics today p).1.avg_annual_running)
          (derive_metrics today p).1.age_years
        exact pyRoundN3_bounds hs.1 hs.2
  · cases hice : ice_engine p (derive_metrics today p).1 with
    | error e => rw [hice] at h; simp [Except.map] at h
    | ok r'' =>
      rw [hice] at h
      simp only [Except.map, Except.ok.injEq] at h
      subst h
      simp only [assemble_ice] at hb
      exact absurd hb (by simp)

set_option maxRecDepth 8000 in
/-- **C6** counterexample: a 35-year-old LFP EV — the code returns SoH 0.7
(age clamped at 20 years), whereas the claim's formula
`clamp(1 − rate × age, 0.55, 1)` gives 0.55. -/
theorem C6_counterexample :
    (derive_metrics t0 veteranLfp).1.age_years = 35 ∧
    okSoh (value_vehicle t0 veteranLfp) = 7/10 ∧
    clamp (1 - ev_degradation_rate_lfp * 35) ev_min_soh 1 = 55/100 ∧
    ¬((7:ℚ)/10 = 55/100) := by decide

set_option maxRecDepth 8000 in
/-- **C6** witness: the amended statement instantiated on the 35-year-old
LFP EV. -/
theorem C6_witness :
    veteranLfp_ev.battery_soh =
      pyRoundN (ev_soh (ev_annual_deg (ev_chemistry veteranLfp)
          (derive_metrics t0 veteranLfp).1.avg_annual_running)
        (derive_metrics t0 veteranLfp).1.age_years) 3 ∧
    55/100 ≤ veteranLfp_ev.battery_soh ∧ veteranLfp_ev.battery_soh ≤ 1 :=
  C6_soh_clamped t0 veteranLfp veteranLfp_out veteranLfp_ev (by decide) (by decide)

set_option maxRecDepth 8000 in
/-- **C4** (amended): for the Scenario A input at the frozen now, the
derived age is exactly 5 years, the base depreciation is 35% (the 5-year
bucket), neither lifecycle list matches "Maruti Suzuki Swift", no
NCR-diesel or South-India regional rule fires, market blending uses the
3-to-6-year tier weight 0.6 (60% market / 40% book — not 50/50), and the
final retail (383818) and dealer (337436) values are both positive with
dealer < retail. -/
theorem C4_scenarioA :
    (derive_metrics t0 scenarioA).1.age_years = 5 ∧
    choose_depr_from_grid 5 = 35/100 ∧
    ice_mm scenarioA ∉ DISCONTINUED_DB ∧
    ice_mm scenarioA ∉ NEW_GEN_DB ∧
    ice_ncr_diesel scenarioA = false ∧
    ice_south_factor scenarioA.rto_code = 1 ∧
    okBookIce (value_vehicle t0 scenarioA) = 383292 ∧
    ice_used_weight 5 (divergence 425000 383292) = 6/10 ∧
    okFair (value_vehicle t0 scenarioA) = 383818 ∧
    okDealer (value_vehicle t0 scenarioA) = 337436 ∧
    0 < okDealer (value_vehicle t0 scenarioA) ∧
    okDealer (value_vehicle t0 scenarioA) < okFair (value_vehicle t0 scenarioA) := by
  decide

set_option maxRecDepth 8000 in
/-- **C4** counterexample: blending Scenario A's own book value 383292 with
the market mean at the claimed 50/50 weight would give a retail of 379897;
the engine returns 383818 (the 60/40 blend), refuting the 50/50 part of
the claim. -/
theorem C4_counterexample :
    okFair (value_vehicle t0 scenarioA) = 383818 ∧
    okBookIce (value_vehicle t0 scenarioA) = 383292 ∧
    pyRound ((1/2 * 425000 + 1/2 * 383292) * negotiation_buffer_default) = 379897 ∧
    (383818 : ℤ) ≠ 379897 := by decide
